import Mathlib

/-!
Verification development for the docx-to-html conversion script
(scripts/docx-to-html.mjs).  The script parses command-line arguments into
a fully-populated configuration structure, computes a default output path,
renders the document package via an asynchronous renderer, and writes the
assembled HTML to a file only after rendering resolves.  The definitions
below are a shallow embedding of that script: strings stay strings, the
process-exit and console effects become an explicit trace of events, and
the asynchronous render call becomes an explicit Except-valued parameter.
-/

namespace DocxToHtml

/-- JavaScript arg.startsWith(pre): pre is a character-wise prefix of s. -/
def strStartsWith (s pre : String) : Bool :=
  pre.data.isPrefixOf s.data

/-- JavaScript endsWith-style check: suf is a character-wise suffix of s. -/
def strEndsWith (s suf : String) : Bool :=
  suf.data.isSuffixOf s.data

/-- JavaScript truthiness of a string-or-null value: null and the empty
string are falsy, every other string is truthy.  Used for the checks
!options.input and !options.output in the script. -/
def strFalsy : Option String → Bool
  | none => true
  | some s => s = ""

/-- The docx-preview configuration structure assembled by parseArgs
(fields and defaults from lines 47-67 of scripts/docx-to-html.mjs). -/
structure DocxOptions where
  inWrapper : Bool
  hideWrapperOnPrint : Bool
  ignoreWidth : Bool
  ignoreHeight : Bool
  ignoreFonts : Bool
  breakPages : Bool
  debug : Bool
  experimental : Bool
  className : String
  trimXmlDeclaration : Bool
  ignoreLastRenderedPageBreak : Bool
  renderHeaders : Bool
  renderFooters : Bool
  renderFootnotes : Bool
  renderEndnotes : Bool
  useBase64URL : Bool
  renderChanges : Bool
  renderComments : Bool
  renderAltChunks : Bool
  deriving Repr, DecidableEq

/-- The default docxOptions object literal in parseArgs. -/
def defaultDocxOptions : DocxOptions where
  inWrapper := true
  hideWrapperOnPrint := false
  ignoreWidth := false
  ignoreHeight := false
  ignoreFonts := false
  breakPages := true
  debug := false
  experimental := false
  className := "docx"
  trimXmlDeclaration := true
  ignoreLastRenderedPageBreak := true
  renderHeaders := true
  renderFooters := true
  renderFootnotes := true
  renderEndnotes := true
  useBase64URL := true
  renderChanges := false
  renderComments := false
  renderAltChunks := true

/-- The full options object built by parseArgs: positional input and
output paths (null until assigned), the bodyOnly flag, and the nested
docx-preview options. -/
structure Options where
  input : Option String
  output : Option String
  bodyOnly : Bool
  docxOptions : DocxOptions
  deriving Repr, DecidableEq

/-- The options value at the top of parseArgs, before the argument loop. -/
def initialOptions : Options where
  input := none
  output := none
  bodyOnly := false
  docxOptions := defaultDocxOptions

/-- Result of one iteration of the parseArgs loop body: either the loop
continues with updated options, or the process exits (exit 0 after
printing help, exit 1 after reporting an unknown option). -/
inductive StepResult where
  | cont (o : Options)
  | exitHelp
  | exitUnknown (arg : String)
  deriving Repr, DecidableEq

/-- The positional branch of the parseArgs loop (lines 114-119): a
non-dashed argument fills input when input is still falsy, else output
when output is still falsy, else it is ignored. -/
def applyPositional (o : Options) (arg : String) : Options :=
  if strFalsy o.input then { o with input := some arg }
  else if strFalsy o.output then { o with output := some arg }
  else o

/-- One iteration of the for-loop of parseArgs (lines 70-124 of
scripts/docx-to-html.mjs), with the if/else chain in source order.
A positional argument (not starting with a dash) fills input first and
output second, using JavaScript truthiness for the emptiness test; any
other dashed argument terminates the process with an unknown-option
error. -/
def processArg (o : Options) (arg : String) : StepResult :=
  if arg = "--help" ∨ arg = "-h" then
    .exitHelp
  else if arg = "--no-wrapper" then
    .cont { o with docxOptions := { o.docxOptions with inWrapper := false } }
  else if arg = "--hide-wrapper-print" then
    .cont { o with docxOptions := { o.docxOptions with hideWrapperOnPrint := true } }
  else if arg = "--ignore-width" then
    .cont { o with docxOptions := { o.docxOptions with ignoreWidth := true } }
  else if arg = "--ignore-height" then
    .cont { o with docxOptions := { o.docxOptions with ignoreHeight := true } }
  else if arg = "--ignore-fonts" then
    .cont { o with docxOptions := { o.docxOptions with ignoreFonts := true } }
  else if arg = "--no-break-pages" then
    .cont { o with docxOptions := { o.docxOptions with breakPages := false } }
  else if arg = "--debug" then
    .cont { o with docxOptions := { o.docxOptions with debug := true } }
  else if arg = "--experimental" then
    .cont { o with docxOptions := { o.docxOptions with experimental := true } }
  else if strStartsWith arg "--class-name=" then
    .cont { o with docxOptions :=
      { o.docxOptions with className := (arg.splitOn "=").getD 1 "" } }
  else if arg = "--no-trim-xml" then
    .cont { o with docxOptions := { o.docxOptions with trimXmlDeclaration := false } }
  else if arg = "--render-page-breaks" then
    .cont { o with docxOptions := { o.docxOptions with ignoreLastRenderedPageBreak := false } }
  else if arg = "--base64" then
    .cont { o with docxOptions := { o.docxOptions with useBase64URL := true } }
  else if arg = "--render-changes" then
    .cont { o with docxOptions := { o.docxOptions with renderChanges := true } }
  else if arg = "--render-comments" then
    .cont { o with docxOptions := { o.docxOptions with renderComments := true } }
  else if arg = "--no-alt-chunks" then
    .cont { o with docxOptions := { o.docxOptions with renderAltChunks := false } }
  else if arg = "--no-headers" then
    .cont { o with docxOptions := { o.docxOptions with renderHeaders := false } }
  else if arg = "--no-footers" then
    .cont { o with docxOptions := { o.docxOptions with renderFooters := false } }
  else if arg = "--no-footnotes" then
    .cont { o with docxOptions := { o.docxOptions with renderFootnotes := false } }
  else if arg = "--no-endnotes" then
    .cont { o with docxOptions := { o.docxOptions with renderEndnotes := false } }
  else if arg = "--body-only" then
    .cont { o with bodyOnly := true }
  else if !(strStartsWith arg "-") then
    .cont (applyPositional o arg)
  else
    .exitUnknown arg

/-- Outcome of parseArgs as a whole: the returned options, or a process
exit from inside the loop. -/
inductive ParseResult where
  | ok (o : Options)
  | exitHelp
  | exitUnknown (arg : String)
  deriving Repr, DecidableEq

/-- The argument loop of parseArgs, processing arguments left to right
until the list is exhausted or the process exits. -/
def parseArgsLoop : Options → List String → ParseResult
  | o, [] => .ok o
  | o, a :: rest =>
    match processArg o a with
    | .cont o2 => parseArgsLoop o2 rest
    | .exitHelp => .exitHelp
    | .exitUnknown s => .exitUnknown s

/-- parseArgs (lines 41-127 of scripts/docx-to-html.mjs). -/
def parseArgs (args : List String) : ParseResult :=
  parseArgsLoop initialOptions args

/-- The recognized exact-match option flags of the if/else chain in
parseArgs, including the help aliases; any other dashed argument that
does not start with --class-name= reaches the unknown-option branch. -/
def exactFlags : List String :=
  ["--help", "-h", "--no-wrapper", "--hide-wrapper-print", "--ignore-width",
   "--ignore-height", "--ignore-fonts", "--no-break-pages", "--debug",
   "--experimental", "--no-trim-xml", "--render-page-breaks", "--base64",
   "--render-changes", "--render-comments", "--no-alt-chunks",
   "--no-headers", "--no-footers", "--no-footnotes", "--no-endnotes",
   "--body-only"]

/-- Lower-case every character of a string (for case-insensitive regex
matching). -/
def lowerStr (s : String) : String :=
  String.mk (s.data.map Char.toLower)

/-- Whether the string matches the regular expression for a trailing
.docx, case-insensitively (the test performed by /\.docx$/i). -/
def endsWithDocxCI (s : String) : Bool :=
  strEndsWith (lowerStr s) ".docx"

/-- The default output path (line 284 of scripts/docx-to-html.mjs):
input.replace with the case-insensitive anchored pattern docx-suffix,
replacing a trailing .docx by .html; a non-matching input is returned
unchanged. -/
def defaultOutput (input : String) : String :=
  if endsWithDocxCI input then
    String.mk (input.data.take (input.data.length - 5)) ++ ".html"
  else input

/-- The output path used by the main code (lines 283-285): the explicit
output argument when it is truthy, otherwise the default computed from
the input path. -/
def resolveOutput (o : Options) : String :=
  if strFalsy o.output then defaultOutput (o.input.getD "") else o.output.getD ""

/-- Node path.basename with an extension argument: the last non-empty
path segment, with ext stripped when it is a proper suffix of the
segment. -/
def nodeBasename (p ext : String) : String :=
  let base := (p.splitOn "/").foldl (fun acc seg => if seg = "" then acc else seg) p
  if base ≠ ext ∧ strEndsWith base ext then
    String.mk (base.data.take (base.data.length - ext.data.length))
  else base

/-- The two DOM fragments produced by the renderer: the innerHTML of the
content container and of the style container. -/
structure Rendered where
  containerHTML : String
  styleHTML : String
  deriving Repr, DecidableEq

/-- A JavaScript Error value as observed by the catch handler: its
message and its stack trace. -/
structure JsError where
  message : String
  stack : String
  deriving Repr, DecidableEq

/-- One observable effect of the script, in order of occurrence:
console.log lines, console.error lines, the printHelp output, the
readFileSync call, and the writeFileSync call. -/
inductive TraceEvent where
  | log (msg : String)
  | logErr (msg : String)
  | logOptions (opts : DocxOptions)
  | logHelp
  | readFile (path : String)
  | writeFile (path : String) (content : String)
  deriving Repr, DecidableEq

/-- Whether a trace event is the writeFileSync call. -/
def TraceEvent.isWrite : TraceEvent → Bool
  | .writeFile _ _ => true
  | _ => false

/-- Whether a trace event is a console.error line. -/
def TraceEvent.isErrLine : TraceEvent → Bool
  | .logErr _ => true
  | _ => false

/-- The trace leaves the output file untouched: it contains no
writeFileSync event. -/
def writesNothing (evs : List TraceEvent) : Bool :=
  evs.all (fun ev => !ev.isWrite)

/-- The complete HTML document assembled when bodyOnly is off (lines
249-263): head with title from the basename of the input, a fixed body
style rule, the rendered stylesheet fragment, and the rendered content
fragment. -/
def fullHtmlDoc (inputPath : String) (r : Rendered) : String :=
  "<!DOCTYPE html>\n<html lang=\"en\">\n<head>\n  <meta charset=\"UTF-8\">\n  <meta name=\"viewport\" content=\"width=device-width, initial-scale=1.0\">\n  <title>"
    ++ nodeBasename inputPath ".docx"
    ++ "</title>\n  <style>\n    body \x7b margin: 0; padding: 20px; background: #f0f0f0; \x7d\n  </style>\n  "
    ++ r.styleHTML
    ++ "\n</head>\n<body>\n  "
    ++ r.containerHTML
    ++ "\n</body>\n</html>"

/-- The HTML string written to the output file: the bare fragments when
bodyOnly is on, otherwise the complete document. -/
def assembleHtml (inputPath : String) (o : Options) (r : Rendered) : String :=
  if o.bodyOnly then r.styleHTML ++ "\n" ++ r.containerHTML
  else fullHtmlDoc inputPath r

/-- convertDocxToHtml (lines 223-270 of scripts/docx-to-html.mjs) as a
trace semantics.  The synchronous readFileSync result and the
asynchronous renderAsync outcome are passed as Except-valued parameters;
a thrown or rejected error aborts the async function, so the returned
trace is everything that happened before the failure, and the outcome is
the rejected error.  The writeFileSync of the assembled HTML is emitted
only after the render outcome is ok. -/
def convertDocxToHtml (inputPath outputPath : String) (o : Options)
    (readResult : Except JsError String)
    (render : String → Except JsError Rendered) :
    List TraceEvent × Except JsError Unit :=
  let ev1 := (if o.docxOptions.debug then [TraceEvent.logOptions o.docxOptions] else [])
      ++ [TraceEvent.log ("Reading: " ++ inputPath)]
  match readResult with
  | .error e => (ev1, .error e)
  | .ok buf =>
    let ev2 := ev1 ++ [TraceEvent.readFile inputPath, TraceEvent.log "Converting..."]
    match render buf with
    | .error e => (ev2, .error e)
    | .ok r =>
      let html := assembleHtml inputPath o r
      (ev2 ++ [TraceEvent.writeFile outputPath html,
               TraceEvent.log ("Output: " ++ outputPath),
               TraceEvent.log "Done!"],
       .ok ())

/-- The top-level driver (lines 272-293): parse the arguments, exit 1
with an error line when no input path was given, default the output
path, run the conversion, and in the promise catch handler report the
error message (plus the stack trace when debug logging is on) and exit
with status 1.  The second component is the process exit status: none
means the script ran to completion without calling process.exit. -/
def runMain (args : List String) (readResult : Except JsError String)
    (render : String → Except JsError Rendered) :
    List TraceEvent × Option Nat :=
  match parseArgs args with
  | .exitHelp => ([TraceEvent.logHelp], some 0)
  | .exitUnknown a => ([TraceEvent.logErr ("Unknown option: " ++ a)], some 1)
  | .ok o =>
    if strFalsy o.input then
      ([TraceEvent.logErr "Error: No input file specified",
        TraceEvent.log "Usage: node scripts/docx-to-html.mjs <input.docx> [output.html] [options]",
        TraceEvent.log "Use --help for more information"], some 1)
    else
      let res := convertDocxToHtml (o.input.getD "") (resolveOutput o) o readResult render
      match res.2 with
      | .ok _ => (res.1, none)
      | .error err =>
        (res.1 ++ [TraceEvent.logErr ("Error: " ++ err.message)]
               ++ (if o.docxOptions.debug then [TraceEvent.logErr err.stack] else []),
         some 1)

/-- Modelled from the spec: a named style definition of the Style
Catalog (spec section 3), absent from src/ (only the docx-to-html
script is present; the renderer and style model live outside it).  A
definition has an identifier, an optional parent style identifier
(single-inheritance chain) and a set of property assignments. -/
structure StyleDef where
  id : String
  basedOn : Option String
  props : List (String × String)
  deriving Repr, DecidableEq

/-- Modelled from the spec: lookup of a style definition by identifier
in the Style Catalog. -/
def lookupStyle (catalog : List StyleDef) (sid : String) : Option StyleDef :=
  catalog.find? (fun s => s.id = sid)

/-- Modelled from the spec: the inheritance chain of a named style,
listed from the most distant ancestor to the most specific style (spec
section 4.3), resolved by an iterative walk bounded by the catalog size
so that a cyclic chain cannot loop forever (spec section 9: iterative
walk with cycle detection). -/
def styleChain (catalog : List StyleDef) : Nat → Option String → List StyleDef
  | 0, _ => []
  | _ + 1, none => []
  | fuel + 1, some sid =>
    match lookupStyle catalog sid with
    | none => []
    | some s => styleChain catalog fuel s.basedOn ++ [s]

/-- Modelled from the spec: the value a sequence of property
assignments gives to property p, with a later assignment overriding an
earlier one (descendant and direct properties win on conflict). -/
def layerValue (layer : List (String × String)) (p : String) : Option String :=
  layer.foldl (fun acc kv => if kv.1 = p then some kv.2 else acc) none

/-- Modelled from the spec: the ordered merge of the style cascade for
one element (spec section 4.3): document defaults first, then the
properties of the named-style inheritance chain from most distant
ancestor to most specific, then direct (in-place) formatting last. -/
def cascadeLayers (defaults : List (String × String)) (catalog : List StyleDef)
    (styleId : Option String) (direct : List (String × String)) :
    List (String × String) :=
  defaults
    ++ ((styleChain catalog (catalog.length + 1) styleId).map StyleDef.props).flatten
    ++ direct

/-- Modelled from the spec: the cascade-resolved value of property p
for an element with the given named style and direct formatting; later
layers of the merge override earlier ones. -/
def resolveProp (defaults : List (String × String)) (catalog : List StyleDef)
    (styleId : Option String) (direct : List (String × String)) (p : String) :
    Option String :=
  layerValue (cascadeLayers defaults catalog styleId direct) p

theorem layerValue_foldl_init (p : String) (ys : List (String × String))
    (init : Option String) :
    ys.foldl (fun acc kv => if kv.1 = p then some kv.2 else acc) init =
      match ys.foldl (fun acc kv => if kv.1 = p then some kv.2 else acc) none with
      | some v => some v
      | none => init := by
  induction ys generalizing init with
  | nil => simp
  | cons kv ys ih =>
    simp only [List.foldl_cons]
    rw [ih, ih (if kv.1 = p then some kv.2 else none)]
    cases ys.foldl (fun acc kv => if kv.1 = p then some kv.2 else acc) none with
    | some v => simp
    | none =>
      by_cases hk : kv.1 = p <;> simp [hk]

theorem layerValue_append (xs ys : List (String × String)) (p : String) :
    layerValue (xs ++ ys) p =
      match layerValue ys p with
      | some v => some v
      | none => layerValue xs p := by
  unfold layerValue
  rw [List.foldl_append]
  exact layerValue_foldl_init p ys _

theorem strStartsWith_of_append (pre s : String) :
    strStartsWith (pre ++ s) pre = true := by
  unfold strStartsWith
  rw [String.data_append]
  exact List.isPrefixOf_iff_prefix.mpr (List.prefix_append _ _)

theorem strStartsWith_mono {a pre pre2 : String}
    (h2 : strStartsWith pre2 pre = true) (h : strStartsWith a pre2 = true) :
    strStartsWith a pre = true := by
  unfold strStartsWith at *
  exact List.isPrefixOf_iff_prefix.mpr
    ((List.isPrefixOf_iff_prefix.mp h2).trans (List.isPrefixOf_iff_prefix.mp h))

theorem dash_of_className {a : String}
    (h : strStartsWith a "--class-name=" = true) :
    strStartsWith a "-" = true :=
  strStartsWith_mono (by decide) h

theorem parseArgsLoop_append (xs ys : List String) (o : Options) :
    parseArgsLoop o (xs ++ ys) =
      match parseArgsLoop o xs with
      | .ok o2 => parseArgsLoop o2 ys
      | .exitHelp => .exitHelp
      | .exitUnknown s => .exitUnknown s := by
  induction xs generalizing o with
  | nil => simp [parseArgsLoop]
  | cons a rest ih =>
    simp only [List.cons_append, parseArgsLoop]
    cases processArg o a with
    | cont o2 => exact ih o2
    | exitHelp => rfl
    | exitUnknown s => rfl

theorem parseArgs_append_one (args : List String) (o : Options) (a : String)
    (h : parseArgs args = .ok o) :
    parseArgs (args ++ [a]) =
      match processArg o a with
      | .cont o2 => .ok o2
      | .exitHelp => .exitHelp
      | .exitUnknown s => .exitUnknown s := by
  unfold parseArgs at h ⊢
  rw [parseArgsLoop_append, h]
  cases hp : processArg o a <;> simp [parseArgsLoop, hp]

theorem processArg_positional (o : Options) (a : String)
    (h : strStartsWith a "-" = false) :
    processArg o a = .cont (applyPositional o a) := by
  have hne : ∀ b : String, strStartsWith b "-" = true → ¬a = b := by
    intro b hb he
    rw [he, hb] at h
    exact Bool.noConfusion h
  have hcn : strStartsWith a "--class-name=" = false := by
    cases hx : strStartsWith a "--class-name=" with
    | false => rfl
    | true =>
      rw [dash_of_className hx] at h
      exact Bool.noConfusion h
  simp [processArg, hcn, h,
    hne "--help" (by decide), hne "-h" (by decide),
    hne "--no-wrapper" (by decide), hne "--hide-wrapper-print" (by decide),
    hne "--ignore-width" (by decide), hne "--ignore-height" (by decide),
    hne "--ignore-fonts" (by decide), hne "--no-break-pages" (by decide),
    hne "--debug" (by decide), hne "--experimental" (by decide),
    hne "--no-trim-xml" (by decide), hne "--render-page-breaks" (by decide),
    hne "--base64" (by decide), hne "--render-changes" (by decide),
    hne "--render-comments" (by decide), hne "--no-alt-chunks" (by decide),
    hne "--no-headers" (by decide), hne "--no-footers" (by decide),
    hne "--no-footnotes" (by decide), hne "--no-endnotes" (by decide),
    hne "--body-only" (by decide)]

theorem applyPositional_docxOptions (o : Options) (a : String) :
    (applyPositional o a).docxOptions = o.docxOptions := by
  unfold applyPositional
  split
  · rfl
  · split <;> rfl

theorem processArg_className (o : Options) (s : String) :
    processArg o ("--class-name=" ++ s) =
      .cont { o with docxOptions := { o.docxOptions with
        className := (("--class-name=" ++ s).splitOn "=").getD 1 "" } } := by
  have hpre : strStartsWith ("--class-name=" ++ s) "--class-name=" = true :=
    strStartsWith_of_append _ _
  have hne : ∀ b : String, strStartsWith b "--class-name=" = false →
      ¬("--class-name=" ++ s) = b := by
    intro b hb he
    rw [he, hb] at hpre
    exact Bool.noConfusion hpre
  simp [processArg, hpre,
    hne "--help" (by decide), hne "-h" (by decide),
    hne "--no-wrapper" (by decide), hne "--hide-wrapper-print" (by decide),
    hne "--ignore-width" (by decide), hne "--ignore-height" (by decide),
    hne "--ignore-fonts" (by decide), hne "--no-break-pages" (by decide),
    hne "--debug" (by decide), hne "--experimental" (by decide)]

theorem parseArgsLoop_positional (args : List String) :
    ∀ o : Options, (∀ a ∈ args, strStartsWith a "-" = false) →
      ∃ o2 : Options, parseArgsLoop o args = .ok o2 ∧
        o2.docxOptions = o.docxOptions := by
  induction args with
  | nil => exact fun o _ => ⟨o, rfl, rfl⟩
  | cons a rest ih =>
    intro o h
    obtain ⟨o2, h1, h2⟩ :=
      ih (applyPositional o a) (fun b hb => h b (List.mem_cons_of_mem a hb))
    refine ⟨o2, ?_, h2.trans (applyPositional_docxOptions o a)⟩
    simp only [parseArgsLoop, processArg_positional o a (h a (List.mem_cons_self a rest))]
    exact h1

theorem processArg_fields (o o2 : Options) (a : String)
    (h : processArg o a = .cont o2) :
    (o2.docxOptions.inWrapper = o.docxOptions.inWrapper ∨ a = "--no-wrapper")
    ∧ (o2.docxOptions.hideWrapperOnPrint = o.docxOptions.hideWrapperOnPrint ∨ a = "--hide-wrapper-print")
    ∧ (o2.docxOptions.ignoreWidth = o.docxOptions.ignoreWidth ∨ a = "--ignore-width")
    ∧ (o2.docxOptions.ignoreHeight = o.docxOptions.ignoreHeight ∨ a = "--ignore-height")
    ∧ (o2.docxOptions.ignoreFonts = o.docxOptions.ignoreFonts ∨ a = "--ignore-fonts")
    ∧ (o2.docxOptions.breakPages = o.docxOptions.breakPages ∨ a = "--no-break-pages")
    ∧ (o2.docxOptions.debug = o.docxOptions.debug ∨ a = "--debug")
    ∧ (o2.docxOptions.experimental = o.docxOptions.experimental ∨ a = "--experimental")
    ∧ (o2.docxOptions.className = o.docxOptions.className ∨ strStartsWith a "--class-name=" = true)
    ∧ (o2.docxOptions.trimXmlDeclaration = o.docxOptions.trimXmlDeclaration ∨ a = "--no-trim-xml")
    ∧ (o2.docxOptions.ignoreLastRenderedPageBreak = o.docxOptions.ignoreLastRenderedPageBreak ∨ a = "--render-page-breaks")
    ∧ (o2.docxOptions.renderHeaders = o.docxOptions.renderHeaders ∨ a = "--no-headers")
    ∧ (o2.docxOptions.renderFooters = o.docxOptions.renderFooters ∨ a = "--no-footers")
    ∧ (o2.docxOptions.renderFootnotes = o.docxOptions.renderFootnotes ∨ a = "--no-footnotes")
    ∧ (o2.docxOptions.renderEndnotes = o.docxOptions.renderEndnotes ∨ a = "--no-endnotes")
    ∧ (o2.docxOptions.useBase64URL = o.docxOptions.useBase64URL ∨ a = "--base64")
    ∧ (o2.docxOptions.renderChanges = o.docxOptions.renderChanges ∨ a = "--render-changes")
    ∧ (o2.docxOptions.renderComments = o.docxOptions.renderComments ∨ a = "--render-comments")
    ∧ (o2.docxOptions.renderAltChunks = o.docxOptions.renderAltChunks ∨ a = "--no-alt-chunks") := by
  unfold processArg at h
  by_cases h0 : a = "--help" ∨ a = "-h"
  · rw [if_pos h0] at h; exact StepResult.noConfusion h
  rw [if_neg h0] at h
  by_cases h1 : a = "--no-wrapper"
  · rw [if_pos h1] at h
    injection h with h2
    subst h2
    exact ⟨Or.inr h1, Or.inl rfl, Or.inl rfl, Or.inl rfl, Or.inl rfl, Or.inl rfl, Or.inl rfl, Or.inl rfl, Or.inl rfl, Or.inl rfl, Or.inl rfl, Or.inl rfl, Or.inl rfl, Or.inl rfl, Or.inl rfl, Or.inl rfl, Or.inl rfl, Or.inl rfl, Or.inl rfl⟩
  rw [if_neg h1] at h
  by_cases h2 : a = "--hide-wrapper-print"
  · rw [if_pos h2] at h
    injection h with h2
    subst h2
    exact ⟨Or.inl rfl, Or.inr h2, Or.inl rfl, Or.inl rfl, Or.inl rfl, Or.inl rfl, Or.inl rfl, Or.inl rfl, Or.inl rfl, Or.inl rfl, Or.inl rfl, Or.inl rfl, Or.inl rfl, Or.inl rfl, Or.inl rfl, Or.inl rfl, Or.inl rfl, Or.inl rfl, Or.inl rfl⟩
  rw [if_neg h2] at h
  by_cases h3 : a = "--ignore-width"
  · rw [if_pos h3] at h
    injection h with h2
    subst h2
    exact ⟨Or.inl rfl, Or.inl rfl, Or.inr h3, Or.inl rfl, Or.inl rfl, Or.inl rfl, Or.inl rfl, Or.inl rfl, Or.inl rfl, Or.inl rfl, Or.inl rfl, Or.inl rfl, Or.inl rfl, Or.inl rfl, Or.inl rfl, Or.inl rfl, Or.inl rfl, Or.inl rfl, Or.inl rfl⟩
  rw [if_neg h3] at h
  by_cases h4 : a = "--ignore-height"
  · rw [if_pos h4] at h
    injection h with h2
    subst h2
    exact ⟨Or.inl rfl, Or.inl rfl, Or.inl rfl, Or.inr h4, Or.inl rfl, Or.inl rfl, Or.inl rfl, Or.inl rfl, Or.inl rfl, Or.inl rfl, Or.inl rfl, Or.inl rfl, Or.inl rfl, Or.inl rfl, Or.inl rfl, Or.inl rfl, Or.inl rfl, Or.inl rfl, Or.inl rfl⟩
  rw [if_neg h4] at h
  by_cases h5 : a = "--ignore-fonts"
  · rw [if_pos h5] at h
    injection h with h2
    subst h2
    exact ⟨Or.inl rfl, Or.inl rfl, Or.inl rfl, Or.inl rfl, Or.inr h5, Or.inl rfl, Or.inl rfl, Or.inl rfl, Or.inl rfl, Or.inl rfl, Or.inl rfl, Or.inl rfl, Or.inl rfl, Or.inl rfl, Or.inl rfl, Or.inl rfl, Or.inl rfl, Or.inl rfl, Or.inl rfl⟩
  rw [if_neg h5] at h
  by_cases h6 : a = "--no-break-pages"
  · rw [if_pos h6] at h
    injection h with h2
    subst h2
    exact ⟨Or.inl rfl, Or.inl rfl, Or.inl rfl, Or.inl rfl, Or.inl rfl, Or.inr h6, Or.inl rfl, Or.inl rfl, Or.inl rfl, Or.inl rfl, Or.inl rfl, Or.inl rfl, Or.inl rfl, Or.inl rfl, Or.inl rfl, Or.inl rfl, Or.inl rfl, Or.inl rfl, Or.inl rfl⟩
  rw [if_neg h6] at h
  by_cases h7 : a = "--debug"
  · rw [if_pos h7] at h
    injection h with h2
    subst h2
    exact ⟨Or.inl rfl, Or.inl rfl, Or.inl rfl, Or.inl rfl, Or.inl rfl, Or.inl rfl, Or.inr h7, Or.inl rfl, Or.inl rfl, Or.inl rfl, Or.inl rfl, Or.inl rfl, Or.inl rfl, Or.inl rfl, Or.inl rfl, Or.inl rfl, Or.inl rfl, Or.inl rfl, Or.inl rfl⟩
  rw [if_neg h7] at h
  by_cases h8 : a = "--experimental"
  · rw [if_pos h8] at h
    injection h with h2
    subst h2
    exact ⟨Or.inl rfl, Or.inl rfl, Or.inl rfl, Or.inl rfl, Or.inl rfl, Or.inl rfl, Or.inl rfl, Or.inr h8, Or.inl rfl, Or.inl rfl, Or.inl rfl, Or.inl rfl, Or.inl rfl, Or.inl rfl, Or.inl rfl, Or.inl rfl, Or.inl rfl, Or.inl rfl, Or.inl rfl⟩
  rw [if_neg h8] at h
  by_cases h9 : strStartsWith a "--class-name=" = true
  · rw [if_pos h9] at h
    injection h with h2
    subst h2
    exact ⟨Or.inl rfl, Or.inl rfl, Or.inl rfl, Or.inl rfl, Or.inl rfl, Or.inl rfl, Or.inl rfl, Or.inl rfl, Or.inr h9, Or.inl rfl, Or.inl rfl, Or.inl rfl, Or.inl rfl, Or.inl rfl, Or.inl rfl, Or.inl rfl, Or.inl rfl, Or.inl rfl, Or.inl rfl⟩
  rw [if_neg h9] at h
  by_cases h10 : a = "--no-trim-xml"
  · rw [if_pos h10] at h
    injection h with h2
    subst h2
    exact ⟨Or.inl rfl, Or.inl rfl, Or.inl rfl, Or.inl rfl, Or.inl rfl, Or.inl rfl, Or.inl rfl, Or.inl rfl, Or.inl rfl, Or.inr h10, Or.inl rfl, Or.inl rfl, Or.inl rfl, Or.inl rfl, Or.inl rfl, Or.inl rfl, Or.inl rfl, Or.inl rfl, Or.inl rfl⟩
  rw [if_neg h10] at h
  by_cases h11 : a = "--render-page-breaks"
  · rw [if_pos h11] at h
    injection h with h2
    subst h2
    exact ⟨Or.inl rfl, Or.inl rfl, Or.inl rfl, Or.inl rfl, Or.inl rfl, Or.inl rfl, Or.inl rfl, Or.inl rfl, Or.inl rfl, Or.inl rfl, Or.inr h11, Or.inl rfl, Or.inl rfl, Or.inl rfl, Or.inl rfl, Or.inl rfl, Or.inl rfl, Or.inl rfl, Or.inl rfl⟩
  rw [if_neg h11] at h
  by_cases h12 : a = "--base64"
  · rw [if_pos h12] at h
    injection h with h2
    subst h2
    exact ⟨Or.inl rfl, Or.inl rfl, Or.inl rfl, Or.inl rfl, Or.inl rfl, Or.inl rfl, Or.inl rfl, Or.inl rfl, Or.inl rfl, Or.inl rfl, Or.inl rfl, Or.inl rfl, Or.inl rfl, Or.inl rfl, Or.inl rfl, Or.inr h12, Or.inl rfl, Or.inl rfl, Or.inl rfl⟩
  rw [if_neg h12] at h
  by_cases h13 : a = "--render-changes"
  · rw [if_pos h13] at h
    injection h with h2
    subst h2
    exact ⟨Or.inl rfl, Or.inl rfl, Or.inl rfl, Or.inl rfl, Or.inl rfl, Or.inl rfl, Or.inl rfl, Or.inl rfl, Or.inl rfl, Or.inl rfl, Or.inl rfl, Or.inl rfl, Or.inl rfl, Or.inl rfl, Or.inl rfl, Or.inl rfl, Or.inr h13, Or.inl rfl, Or.inl rfl⟩
  rw [if_neg h13] at h
  by_cases h14 : a = "--render-comments"
  · rw [if_pos h14] at h
    injection h with h2
    subst h2
    exact ⟨Or.inl rfl, Or.inl rfl, Or.inl rfl, Or.inl rfl, Or.inl rfl, Or.inl rfl, Or.inl rfl, Or.inl rfl, Or.inl rfl, Or.inl rfl, Or.inl rfl, Or.inl rfl, Or.inl rfl, Or.inl rfl, Or.inl rfl, Or.inl rfl, Or.inl rfl, Or.inr h14, Or.inl rfl⟩
  rw [if_neg h14] at h
  by_cases h15 : a = "--no-alt-chunks"
  · rw [if_pos h15] at h
    injection h with h2
    subst h2
    exact ⟨Or.inl rfl, Or.inl rfl, Or.inl rfl, Or.inl rfl, Or.inl rfl, Or.inl rfl, Or.inl rfl, Or.inl rfl, Or.inl rfl, Or.inl rfl, Or.inl rfl, Or.inl rfl, Or.inl rfl, Or.inl rfl, Or.inl rfl, Or.inl rfl, Or.inl rfl, Or.inl rfl, Or.inr h15⟩
  rw [if_neg h15] at h
  by_cases h16 : a = "--no-headers"
  · rw [if_pos h16] at h
    injection h with h2
    subst h2
    exact ⟨Or.inl rfl, Or.inl rfl, Or.inl rfl, Or.inl rfl, Or.inl rfl, Or.inl rfl, Or.inl rfl, Or.inl rfl, Or.inl rfl, Or.inl rfl, Or.inl rfl, Or.inr h16, Or.inl rfl, Or.inl rfl, Or.inl rfl, Or.inl rfl, Or.inl rfl, Or.inl rfl, Or.inl rfl⟩
  rw [if_neg h16] at h
  by_cases h17 : a = "--no-footers"
  · rw [if_pos h17] at h
    injection h with h2
    subst h2
    exact ⟨Or.inl rfl, Or.inl rfl, Or.inl rfl, Or.inl rfl, Or.inl rfl, Or.inl rfl, Or.inl rfl, Or.inl rfl, Or.inl rfl, Or.inl rfl, Or.inl rfl, Or.inl rfl, Or.inr h17, Or.inl rfl, Or.inl rfl, Or.inl rfl, Or.inl rfl, Or.inl rfl, Or.inl rfl⟩
  rw [if_neg h17] at h
  by_cases h18 : a = "--no-footnotes"
  · rw [if_pos h18] at h
    injection h with h2
    subst h2
    exact ⟨Or.inl rfl, Or.inl rfl, Or.inl rfl, Or.inl rfl, Or.inl rfl, Or.inl rfl, Or.inl rfl, Or.inl rfl, Or.inl rfl, Or.inl rfl, Or.inl rfl, Or.inl rfl, Or.inl rfl, Or.inr h18, Or.inl rfl, Or.inl rfl, Or.inl rfl, Or.inl rfl, Or.inl rfl⟩
  rw [if_neg h18] at h
  by_cases h19 : a = "--no-endnotes"
  · rw [if_pos h19] at h
    injection h with h2
    subst h2
    exact ⟨Or.inl rfl, Or.inl rfl, Or.inl rfl, Or.inl rfl, Or.inl rfl, Or.inl rfl, Or.inl rfl, Or.inl rfl, Or.inl rfl, Or.inl rfl, Or.inl rfl, Or.inl rfl, Or.inl rfl, Or.inl rfl, Or.inr h19, Or.inl rfl, Or.inl rfl, Or.inl rfl, Or.inl rfl⟩
  rw [if_neg h19] at h
  by_cases h20 : a = "--body-only"
  · rw [if_pos h20] at h
    injection h with h2
    subst h2
    exact ⟨Or.inl rfl, Or.inl rfl, Or.inl rfl, Or.inl rfl, Or.inl rfl, Or.inl rfl, Or.inl rfl, Or.inl rfl, Or.inl rfl, Or.inl rfl, Or.inl rfl, Or.inl rfl, Or.inl rfl, Or.inl rfl, Or.inl rfl, Or.inl rfl, Or.inl rfl, Or.inl rfl, Or.inl rfl⟩
  rw [if_neg h20] at h
  by_cases hp : (!strStartsWith a "-") = true
  · rw [if_pos hp] at h
    injection h with h2
    subst h2
    have hd := applyPositional_docxOptions o a
    exact ⟨Or.inl (congrArg (fun d => d.inWrapper) hd), Or.inl (congrArg (fun d => d.hideWrapperOnPrint) hd), Or.inl (congrArg (fun d => d.ignoreWidth) hd), Or.inl (congrArg (fun d => d.ignoreHeight) hd), Or.inl (congrArg (fun d => d.ignoreFonts) hd), Or.inl (congrArg (fun d => d.breakPages) hd), Or.inl (congrArg (fun d => d.debug) hd), Or.inl (congrArg (fun d => d.experimental) hd), Or.inl (congrArg (fun d => d.className) hd), Or.inl (congrArg (fun d => d.trimXmlDeclaration) hd), Or.inl (congrArg (fun d => d.ignoreLastRenderedPageBreak) hd), Or.inl (congrArg (fun d => d.renderHeaders) hd), Or.inl (congrArg (fun d => d.renderFooters) hd), Or.inl (congrArg (fun d => d.renderFootnotes) hd), Or.inl (congrArg (fun d => d.renderEndnotes) hd), Or.inl (congrArg (fun d => d.useBase64URL) hd), Or.inl (congrArg (fun d => d.renderChanges) hd), Or.inl (congrArg (fun d => d.renderComments) hd), Or.inl (congrArg (fun d => d.renderAltChunks) hd)⟩
  rw [if_neg hp] at h
  exact StepResult.noConfusion h

theorem parseArgsLoop_field {α : Type} (f : Options → α) (trig : String → Prop)
    (hstep : ∀ (o o2 : Options) (a : String),
      processArg o a = .cont o2 → f o2 = f o ∨ trig a) :
    ∀ (args : List String) (o o2 : Options),
      parseArgsLoop o args = .ok o2 → f o2 = f o ∨ ∃ a ∈ args, trig a := by
  intro args
  induction args with
  | nil =>
    intro o o2 h
    simp only [parseArgsLoop, ParseResult.ok.injEq] at h
    exact Or.inl (h ▸ rfl)
  | cons a rest ih =>
    intro o o2 h
    simp only [parseArgsLoop] at h
    cases hp : processArg o a with
    | cont o1 =>
      rw [hp] at h
      rcases ih o1 o2 h with h2 | ⟨b, hb, ht⟩
      · rcases hstep o o1 a hp with h3 | h3
        · exact Or.inl (h2.trans h3)
        · exact Or.inr ⟨a, List.mem_cons_self a rest, h3⟩
      · exact Or.inr ⟨b, List.mem_cons_of_mem a hb, ht⟩
    | exitHelp => rw [hp] at h; exact absurd h (by simp)
    | exitUnknown s => rw [hp] at h; exact absurd h (by simp)

theorem processArg_useBase64URL (o o2 : Options) (a : String)
    (h : processArg o a = .cont o2)
    (hb : o.docxOptions.useBase64URL = true) :
    o2.docxOptions.useBase64URL = true := by
  rcases (processArg_fields o o2 a h).2.2.2.2.2.2.2.2.2.2.2.2.2.2.2.1 with h2 | h2
  · exact h2.trans hb
  · subst h2
    unfold processArg at h
    simp only [reduceIte] at h
    injection h with h2
    subst h2
    rfl

theorem parseArgsLoop_useBase64URL (args : List String) :
    ∀ o o2 : Options, parseArgsLoop o args = .ok o2 →
      o.docxOptions.useBase64URL = true →
      o2.docxOptions.useBase64URL = true := by
  induction args with
  | nil =>
    intro o o2 h hb
    simp only [parseArgsLoop, ParseResult.ok.injEq] at h
    exact h ▸ hb
  | cons a rest ih =>
    intro o o2 h hb
    simp only [parseArgsLoop] at h
    cases hp : processArg o a with
    | cont o1 =>
      rw [hp] at h
      exact ih o1 o2 h (processArg_useBase64URL o o1 a hp hb)
    | exitHelp => rw [hp] at h; exact absurd h (by simp)
    | exitUnknown s => rw [hp] at h; exact absurd h (by simp)

/-- C2: for every command-line argument list containing no option flags
(no argument starting with a dash, hence only positional arguments),
parseArgs returns normally and the returned docxOptions structure is
exactly the documented default configuration: inWrapper=true,
hideWrapperOnPrint=false, ignoreWidth=false, ignoreHeight=false,
ignoreFonts=false, breakPages=true, debug=false, experimental=false,
className="docx", trimXmlDeclaration=true,
ignoreLastRenderedPageBreak=true, renderHeaders=true, renderFooters=true,
renderFootnotes=true, renderEndnotes=true, useBase64URL=true,
renderChanges=false, renderComments=false, renderAltChunks=true. -/
theorem parseArgs_no_flags_defaults (args : List String)
    (h : ∀ a ∈ args, strStartsWith a "-" = false) :
    ∃ o : Options, parseArgs args = .ok o ∧ o.docxOptions =
      { inWrapper := true, hideWrapperOnPrint := false, ignoreWidth := false,
        ignoreHeight := false, ignoreFonts := false, breakPages := true,
        debug := false, experimental := false, className := "docx",
        trimXmlDeclaration := true, ignoreLastRenderedPageBreak := true,
        renderHeaders := true, renderFooters := true, renderFootnotes := true,
        renderEndnotes := true, useBase64URL := true, renderChanges := false,
        renderComments := false, renderAltChunks := true } := by
  obtain ⟨o2, h1, h2⟩ := parseArgsLoop_positional args initialOptions h
  exact ⟨o2, h1, h2⟩

/-- Witness for C2 at the concrete argument list [report.docx, out.html]. -/
theorem parseArgs_no_flags_defaults_witness :
    ∃ o : Options, parseArgs ["report.docx", "out.html"] = .ok o ∧ o.docxOptions =
      { inWrapper := true, hideWrapperOnPrint := false, ignoreWidth := false,
        ignoreHeight := false, ignoreFonts := false, breakPages := true,
        debug := false, experimental := false, className := "docx",
        trimXmlDeclaration := true, ignoreLastRenderedPageBreak := true,
        renderHeaders := true, renderFooters := true, renderFootnotes := true,
        renderEndnotes := true, useBase64URL := true, renderChanges := false,
        renderComments := false, renderAltChunks := true } :=
  parseArgs_no_flags_defaults ["report.docx", "out.html"] (by decide)

/-- C4: appending one recognized option flag to an argument list that
parseArgs accepts changes only that designated configuration field, to
its documented value, leaving every other field of the returned options
structure unchanged; for a class-name argument the className field
becomes the segment of the argument between the first equals sign and
any second one (element 1 of splitting the argument on the equals
sign). -/
theorem parseArgs_flag_frame (args : List String) (o : Options)
    (h : parseArgs args = .ok o) :
    parseArgs (args ++ ["--no-wrapper"]) =
      .ok { o with docxOptions := { o.docxOptions with inWrapper := false } }
    ∧ parseArgs (args ++ ["--hide-wrapper-print"]) =
      .ok { o with docxOptions := { o.docxOptions with hideWrapperOnPrint := true } }
    ∧ parseArgs (args ++ ["--ignore-width"]) =
      .ok { o with docxOptions := { o.docxOptions with ignoreWidth := true } }
    ∧ parseArgs (args ++ ["--ignore-height"]) =
      .ok { o with docxOptions := { o.docxOptions with ignoreHeight := true } }
    ∧ parseArgs (args ++ ["--ignore-fonts"]) =
      .ok { o with docxOptions := { o.docxOptions with ignoreFonts := true } }
    ∧ parseArgs (args ++ ["--no-break-pages"]) =
      .ok { o with docxOptions := { o.docxOptions with breakPages := false } }
    ∧ parseArgs (args ++ ["--debug"]) =
      .ok { o with docxOptions := { o.docxOptions with debug := true } }
    ∧ parseArgs (args ++ ["--experimental"]) =
      .ok { o with docxOptions := { o.docxOptions with experimental := true } }
    ∧ parseArgs (args ++ ["--no-trim-xml"]) =
      .ok { o with docxOptions := { o.docxOptions with trimXmlDeclaration := false } }
    ∧ parseArgs (args ++ ["--render-page-breaks"]) =
      .ok { o with docxOptions := { o.docxOptions with ignoreLastRenderedPageBreak := false } }
    ∧ parseArgs (args ++ ["--base64"]) =
      .ok { o with docxOptions := { o.docxOptions with useBase64URL := true } }
    ∧ parseArgs (args ++ ["--render-changes"]) =
      .ok { o with docxOptions := { o.docxOptions with renderChanges := true } }
    ∧ parseArgs (args ++ ["--render-comments"]) =
      .ok { o with docxOptions := { o.docxOptions with renderComments := true } }
    ∧ parseArgs (args ++ ["--no-alt-chunks"]) =
      .ok { o with docxOptions := { o.docxOptions with renderAltChunks := false } }
    ∧ parseArgs (args ++ ["--no-headers"]) =
      .ok { o with docxOptions := { o.docxOptions with renderHeaders := false } }
    ∧ parseArgs (args ++ ["--no-footers"]) =
      .ok { o with docxOptions := { o.docxOptions with renderFooters := false } }
    ∧ parseArgs (args ++ ["--no-footnotes"]) =
      .ok { o with docxOptions := { o.docxOptions with renderFootnotes := false } }
    ∧ parseArgs (args ++ ["--no-endnotes"]) =
      .ok { o with docxOptions := { o.docxOptions with renderEndnotes := false } }
    ∧ parseArgs (args ++ ["--body-only"]) =
      .ok { o with bodyOnly := true }
    ∧ ∀ s : String, parseArgs (args ++ ["--class-name=" ++ s]) =
      .ok { o with docxOptions := { o.docxOptions with
        className := (("--class-name=" ++ s).splitOn "=").getD 1 "" } } := by
  refine ⟨(parseArgs_append_one args o _ h).trans rfl,
    (parseArgs_append_one args o _ h).trans rfl,
    (parseArgs_append_one args o _ h).trans rfl,
    (parseArgs_append_one args o _ h).trans rfl,
    (parseArgs_append_one args o _ h).trans rfl,
    (parseArgs_append_one args o _ h).trans rfl,
    (parseArgs_append_one args o _ h).trans rfl,
    (parseArgs_append_one args o _ h).trans rfl,
    (parseArgs_append_one args o _ h).trans rfl,
    (parseArgs_append_one args o _ h).trans rfl,
    (parseArgs_append_one args o _ h).trans rfl,
    (parseArgs_append_one args o _ h).trans rfl,
    (parseArgs_append_one args o _ h).trans rfl,
    (parseArgs_append_one args o _ h).trans rfl,
    (parseArgs_append_one args o _ h).trans rfl,
    (parseArgs_append_one args o _ h).trans rfl,
    (parseArgs_append_one args o _ h).trans rfl,
    (parseArgs_append_one args o _ h).trans rfl,
    (parseArgs_append_one args o _ h).trans rfl,
    fun s => (parseArgs_append_one args o _ h).trans
      (by rw [processArg_className o s])⟩

/-- Witness for C4 at the empty argument list. -/
theorem parseArgs_flag_frame_witness :
    parseArgs ["--no-wrapper"] =
      .ok { initialOptions with docxOptions :=
        { initialOptions.docxOptions with inWrapper := false } }
    ∧ parseArgs ["--render-changes"] =
      .ok { initialOptions with docxOptions :=
        { initialOptions.docxOptions with renderChanges := true } } := by
  have h := parseArgs_flag_frame [] initialOptions rfl
  exact ⟨h.1, h.2.2.2.2.2.2.2.2.2.2.2.1⟩

/-- C6: whenever parseArgs returns normally, the returned docxOptions
structure is fully populated: each of the 19 recognized configuration
fields carries a definite value, namely its documented default unless
an overriding flag occurs in the argument list; no field is omitted or
merged from a mutated global default object. -/
theorem parseArgs_fully_populated (args : List String) (o : Options)
    (h : parseArgs args = .ok o) :
    (o.docxOptions.inWrapper = true ∨ "--no-wrapper" ∈ args)
    ∧ (o.docxOptions.hideWrapperOnPrint = false ∨ "--hide-wrapper-print" ∈ args)
    ∧ (o.docxOptions.ignoreWidth = false ∨ "--ignore-width" ∈ args)
    ∧ (o.docxOptions.ignoreHeight = false ∨ "--ignore-height" ∈ args)
    ∧ (o.docxOptions.ignoreFonts = false ∨ "--ignore-fonts" ∈ args)
    ∧ (o.docxOptions.breakPages = true ∨ "--no-break-pages" ∈ args)
    ∧ (o.docxOptions.debug = false ∨ "--debug" ∈ args)
    ∧ (o.docxOptions.experimental = false ∨ "--experimental" ∈ args)
    ∧ (o.docxOptions.className = "docx" ∨
        ∃ a ∈ args, strStartsWith a "--class-name=" = true)
    ∧ (o.docxOptions.trimXmlDeclaration = true ∨ "--no-trim-xml" ∈ args)
    ∧ (o.docxOptions.ignoreLastRenderedPageBreak = true ∨ "--render-page-breaks" ∈ args)
    ∧ (o.docxOptions.renderHeaders = true ∨ "--no-headers" ∈ args)
    ∧ (o.docxOptions.renderFooters = true ∨ "--no-footers" ∈ args)
    ∧ (o.docxOptions.renderFootnotes = true ∨ "--no-footnotes" ∈ args)
    ∧ (o.docxOptions.renderEndnotes = true ∨ "--no-endnotes" ∈ args)
    ∧ (o.docxOptions.useBase64URL = true ∨ "--base64" ∈ args)
    ∧ (o.docxOptions.renderChanges = false ∨ "--render-changes" ∈ args)
    ∧ (o.docxOptions.renderComments = false ∨ "--render-comments" ∈ args)
    ∧ (o.docxOptions.renderAltChunks = true ∨ "--no-alt-chunks" ∈ args) := by
  refine ⟨?_, ?_, ?_, ?_, ?_, ?_, ?_, ?_, ?_, ?_, ?_, ?_, ?_, ?_, ?_, ?_, ?_, ?_, ?_⟩
  · simpa using parseArgsLoop_field (fun o => o.docxOptions.inWrapper) _
      (fun o o2 a hp => (processArg_fields o o2 a hp).1) args initialOptions o h
  · simpa using parseArgsLoop_field (fun o => o.docxOptions.hideWrapperOnPrint) _
      (fun o o2 a hp => (processArg_fields o o2 a hp).2.1) args initialOptions o h
  · simpa using parseArgsLoop_field (fun o => o.docxOptions.ignoreWidth) _
      (fun o o2 a hp => (processArg_fields o o2 a hp).2.2.1) args initialOptions o h
  · simpa using parseArgsLoop_field (fun o => o.docxOptions.ignoreHeight) _
      (fun o o2 a hp => (processArg_fields o o2 a hp).2.2.2.1) args initialOptions o h
  · simpa using parseArgsLoop_field (fun o => o.docxOptions.ignoreFonts) _
      (fun o o2 a hp => (processArg_fields o o2 a hp).2.2.2.2.1) args initialOptions o h
  · simpa using parseArgsLoop_field (fun o => o.docxOptions.breakPages) _
      (fun o o2 a hp => (processArg_fields o o2 a hp).2.2.2.2.2.1) args initialOptions o h
  · simpa using parseArgsLoop_field (fun o => o.docxOptions.debug) _
      (fun o o2 a hp => (processArg_fields o o2 a hp).2.2.2.2.2.2.1) args initialOptions o h
  · simpa using parseArgsLoop_field (fun o => o.docxOptions.experimental) _
      (fun o o2 a hp => (processArg_fields o o2 a hp).2.2.2.2.2.2.2.1) args initialOptions o h
  · simpa using parseArgsLoop_field (fun o => o.docxOptions.className) _
      (fun o o2 a hp => (processArg_fields o o2 a hp).2.2.2.2.2.2.2.2.1) args initialOptions o h
  · simpa using parseArgsLoop_field (fun o => o.docxOptions.trimXmlDeclaration) _
      (fun o o2 a hp => (processArg_fields o o2 a hp).2.2.2.2.2.2.2.2.2.1) args initialOptions o h
  · simpa using parseArgsLoop_field (fun o => o.docxOptions.ignoreLastRenderedPageBreak) _
      (fun o o2 a hp => (processArg_fields o o2 a hp).2.2.2.2.2.2.2.2.2.2.1) args initialOptions o h
  · simpa using parseArgsLoop_field (fun o => o.docxOptions.renderHeaders) _
      (fun o o2 a hp => (processArg_fields o o2 a hp).2.2.2.2.2.2.2.2.2.2.2.1) args initialOptions o h
  · simpa using parseArgsLoop_field (fun o => o.docxOptions.renderFooters) _
      (fun o o2 a hp => (processArg_fields o o2 a hp).2.2.2.2.2.2.2.2.2.2.2.2.1) args initialOptions o h
  · simpa using parseArgsLoop_field (fun o => o.docxOptions.renderFootnotes) _
      (fun o o2 a hp => (processArg_fields o o2 a hp).2.2.2.2.2.2.2.2.2.2.2.2.2.1) args initialOptions o h
  · simpa using parseArgsLoop_field (fun o => o.docxOptions.renderEndnotes) _
      (fun o o2 a hp => (processArg_fields o o2 a hp).2.2.2.2.2.2.2.2.2.2.2.2.2.2.1) args initialOptions o h
  · simpa using parseArgsLoop_field (fun o => o.docxOptions.useBase64URL) _
      (fun o o2 a hp => (processArg_fields o o2 a hp).2.2.2.2.2.2.2.2.2.2.2.2.2.2.2.1) args initialOptions o h
  · simpa using parseArgsLoop_field (fun o => o.docxOptions.renderChanges) _
      (fun o o2 a hp => (processArg_fields o o2 a hp).2.2.2.2.2.2.2.2.2.2.2.2.2.2.2.2.1) args initialOptions o h
  · simpa using parseArgsLoop_field (fun o => o.docxOptions.renderComments) _
      (fun o o2 a hp => (processArg_fields o o2 a hp).2.2.2.2.2.2.2.2.2.2.2.2.2.2.2.2.2.1) args initialOptions o h
  · simpa using parseArgsLoop_field (fun o => o.docxOptions.renderAltChunks) _
      (fun o o2 a hp => (processArg_fields o o2 a hp).2.2.2.2.2.2.2.2.2.2.2.2.2.2.2.2.2.2) args initialOptions o h

/-- Witness for C6 at a concrete accepted argument list. -/
theorem parseArgs_fully_populated_witness :
    (({ initialOptions with
        input := some "doc.docx"
        docxOptions := { defaultDocxOptions with debug := true } } : Options).docxOptions.inWrapper = true
      ∨ "--no-wrapper" ∈ ["doc.docx", "--debug"]) ∧
    (({ initialOptions with
        input := some "doc.docx"
        docxOptions := { defaultDocxOptions with debug := true } } : Options).docxOptions.debug = false
      ∨ "--debug" ∈ ["doc.docx", "--debug"]) := by
  have h := parseArgs_fully_populated ["doc.docx", "--debug"]
    { initialOptions with
      input := some "doc.docx"
      docxOptions := { defaultDocxOptions with debug := true } } rfl
  exact ⟨h.1, h.2.2.2.2.2.2.1⟩

/-- C8: for every command-line argument list accepted by parseArgs, the
returned configuration has useBase64URL=true: the default is true and
the only flag touching the field (--base64) also sets it to true, so
base64 inline image URLs cannot be disabled through this interface. -/
theorem parseArgs_useBase64URL_always (args : List String) (o : Options)
    (h : parseArgs args = .ok o) :
    o.docxOptions.useBase64URL = true :=
  parseArgsLoop_useBase64URL args initialOptions o h rfl

/-- Witness for C8 at the concrete argument list with the --base64 flag. -/
theorem parseArgs_useBase64URL_always_witness :
    ({ initialOptions with docxOptions :=
      { defaultDocxOptions with useBase64URL := true } } : Options).docxOptions.useBase64URL = true :=
  parseArgs_useBase64URL_always ["--base64"] _ rfl

/-- C9: appending an argument that starts with a dash but is none of
the recognized option flags (and is not a help alias or a class-name
argument) makes parseArgs report the unknown option and terminate the
process with exit status 1, rather than skipping the argument: the
driver then emits the Unknown option error line and exits 1 without
running the conversion. -/
theorem parseArgs_unknown_option (args : List String) (o : Options) (a : String)
    (rr : Except JsError String) (render : String → Except JsError Rendered)
    (h : parseArgs args = .ok o)
    (hd : strStartsWith a "-" = true)
    (hm : a ∉ exactFlags)
    (hcn : strStartsWith a "--class-name=" = false) :
    parseArgs (args ++ [a]) = .exitUnknown a
    ∧ runMain (args ++ [a]) rr render =
        ([TraceEvent.logErr ("Unknown option: " ++ a)], some 1) := by
  have hne : ∀ b ∈ exactFlags, ¬a = b := fun b hb he => hm (he ▸ hb)
  simp only [exactFlags, List.mem_cons, List.not_mem_nil, or_false, forall_eq_or_imp,
    forall_eq] at hne
  obtain ⟨e1, e2, e3, e4, e5, e6, e7, e8, e9, e10, e11, e12, e13, e14, e15, e16,
    e17, e18, e19, e20, e21⟩ := hne
  have hstep : processArg o a = .exitUnknown a := by
    simp [processArg, hcn, hd, e1, e2, e3, e4, e5, e6, e7, e8, e9, e10, e11,
      e12, e13, e14, e15, e16, e17, e18, e19, e20, e21]
  have h1 : parseArgs (args ++ [a]) = .exitUnknown a := by
    rw [parseArgs_append_one args o a h, hstep]
  refine ⟨h1, ?_⟩
  simp only [runMain, h1]

/-- Witness for C9 at the concrete unrecognized flag argument. -/
theorem parseArgs_unknown_option_witness :
    parseArgs [("--bogus" : String)] = .exitUnknown "--bogus"
    ∧ runMain ["--bogus"] (.ok "") (fun _ => .error ⟨"x", "y"⟩) =
        ([TraceEvent.logErr "Unknown option: --bogus"], some 1) := by
  have h := parseArgs_unknown_option [] initialOptions "--bogus" (.ok "")
    (fun _ => .error ⟨"x", "y"⟩) rfl (by decide) (by decide) (by decide)
  exact ⟨h.1, h.2⟩

/-- C7: when no output path is given on the command line (the output
field is still falsy after parsing), the output path used by the driver
is the input path with a trailing .docx, matched case-insensitively,
replaced by .html; and for every input path that does not end in .docx
the computed output path equals the input path itself, so the
conversion writes its output over its own input file. -/
theorem output_path_default (o : Options) (input : String)
    (hi : o.input = some input) (hout : strFalsy o.output = true) :
    resolveOutput o = defaultOutput input
    ∧ (endsWithDocxCI input = true →
        resolveOutput o =
          String.mk (input.data.take (input.data.length - 5)) ++ ".html")
    ∧ (endsWithDocxCI input = false → resolveOutput o = input) := by
  have h1 : resolveOutput o = defaultOutput input := by
    simp [resolveOutput, hout, hi]
  refine ⟨h1, ?_, ?_⟩
  · intro hdocx
    rw [h1]
    simp [defaultOutput, hdocx]
  · intro hnot
    rw [h1]
    simp [defaultOutput, hnot]

/-- Witness for C7 at a non-docx input path: the computed output path
is the input path itself. -/
theorem output_path_default_witness :
    resolveOutput { initialOptions with input := some "notes.txt" } =
      defaultOutput "notes.txt"
    ∧ (endsWithDocxCI "notes.txt" = true →
        resolveOutput { initialOptions with input := some "notes.txt" } =
          String.mk ("notes.txt".data.take ("notes.txt".data.length - 5)) ++ ".html")
    ∧ (endsWithDocxCI "notes.txt" = false →
        resolveOutput { initialOptions with input := some "notes.txt" } = "notes.txt") :=
  output_path_default { initialOptions with input := some "notes.txt" } "notes.txt" rfl rfl

/-- C1: if the asynchronous render rejects, convertDocxToHtml writes
nothing to the output file: the writeFileSync of the assembled HTML is
sequenced strictly after renderAsync resolves, so the result trace of a
failing render carries no write event (the prior contents of the output
path are untouched) and the returned outcome is the rejection. -/
theorem convert_no_write_on_reject (inputPath outputPath : String) (o : Options)
    (buf : String) (render : String → Except JsError Rendered) (e : JsError)
    (hr : render buf = .error e) :
    (convertDocxToHtml inputPath outputPath o (.ok buf) render).2 = .error e
    ∧ writesNothing (convertDocxToHtml inputPath outputPath o (.ok buf) render).1 = true := by
  simp only [convertDocxToHtml, hr]
  cases hdb : o.docxOptions.debug <;>
    simp [writesNothing, hdb, TraceEvent.isWrite]

/-- Witness for C1 at a concrete failing render. -/
theorem convert_no_write_on_reject_witness :
    (convertDocxToHtml "a.docx" "a.html" initialOptions (.ok "BUF")
        (fun _ => .error ⟨"boom", "st"⟩)).2 = .error ⟨"boom", "st"⟩
    ∧ writesNothing (convertDocxToHtml "a.docx" "a.html" initialOptions (.ok "BUF")
        (fun _ => .error ⟨"boom", "st"⟩)).1 = true :=
  convert_no_write_on_reject "a.docx" "a.html" initialOptions "BUF"
    (fun _ => .error ⟨"boom", "st"⟩) ⟨"boom", "st"⟩ rfl

theorem convert_no_errlines (inputPath outputPath : String) (o : Options)
    (rr : Except JsError String) (render : String → Except JsError Rendered) :
    (convertDocxToHtml inputPath outputPath o rr render).1.all
      (fun ev => !ev.isErrLine) = true := by
  unfold convertDocxToHtml
  cases rr with
  | error e =>
    cases hdb : o.docxOptions.debug <;> simp [hdb, TraceEvent.isErrLine]
  | ok buf =>
    cases hrb : render buf with
    | error e =>
      cases hdb : o.docxOptions.debug <;> simp [hdb, hrb, TraceEvent.isErrLine]
    | ok r =>
      cases hdb : o.docxOptions.debug <;> simp [hdb, hrb, TraceEvent.isErrLine]

/-- C5: when the conversion promise rejects, the catch handler of the
driver reports a single descriptive failure line carrying the error
message on console.error, exits with status 1, and additionally reports
the stack trace exactly when debug logging is enabled; the conversion
itself emitted no console.error line, so the failure report is unique. -/
theorem main_error_report (args : List String) (o : Options)
    (rr : Except JsError String) (render : String → Except JsError Rendered)
    (err : JsError)
    (hp : parseArgs args = .ok o) (hin : strFalsy o.input = false)
    (hres : (convertDocxToHtml (o.input.getD "") (resolveOutput o) o rr render).2 =
      .error err) :
    runMain args rr render =
      ((convertDocxToHtml (o.input.getD "") (resolveOutput o) o rr render).1
        ++ [TraceEvent.logErr ("Error: " ++ err.message)]
        ++ (if o.docxOptions.debug then [TraceEvent.logErr err.stack] else []),
       some 1)
    ∧ (convertDocxToHtml (o.input.getD "") (resolveOutput o) o rr render).1.all
        (fun ev => !ev.isErrLine) = true := by
  refine ⟨?_, convert_no_errlines _ _ _ _ _⟩
  simp only [runMain, hp, hin, Bool.false_eq_true, if_false]
  rw [hres]

/-- Witness for C5 at a concrete rejecting render (debug off: the stack
trace is not reported). -/
theorem main_error_report_witness :
    runMain ["in.docx"] (.ok "BUF") (fun _ => .error ⟨"boom", "trace"⟩) =
      ([TraceEvent.log "Reading: in.docx", TraceEvent.readFile "in.docx",
        TraceEvent.log "Converting...", TraceEvent.logErr "Error: boom"], some 1) := by
  have h := main_error_report ["in.docx"]
    { initialOptions with input := some "in.docx" } (.ok "BUF")
    (fun _ => .error ⟨"boom", "trace"⟩) ⟨"boom", "trace"⟩ rfl rfl rfl
  exact h.1.trans (by decide)

/-- C3: for an element whose named style assigns property P the value
a, whose named style inherits from a parent style assigning P the value
b, and which carries direct (in-place) formatting P=c, the cascade
resolved by the renderer yields P=c (direct formatting wins over the
named style); moreover with the direct formatting removed the same
cascade yields P=a (the named style wins over the inherited parent
style). -/
theorem cascade_direct_wins (catalog : List StyleDef)
    (defaults direct : List (String × String)) (s par : StyleDef)
    (sid P a b c : String)
    (hs : lookupStyle catalog sid = some s)
    (hsb : s.basedOn = some par.id)
    (hpar : lookupStyle catalog par.id = some par)
    (hpb : par.basedOn = none)
    (ha : layerValue s.props P = some a)
    (_hb : layerValue par.props P = some b)
    (hc : layerValue direct P = some c) :
    resolveProp defaults catalog (some sid) direct P = some c
    ∧ resolveProp defaults catalog (some sid) [] P = some a := by
  have hchain : styleChain catalog (catalog.length + 1) (some sid) = [par, s] := by
    obtain ⟨n, hn⟩ : ∃ n, catalog.length = n + 1 := by
      cases hcat : catalog with
      | nil => rw [hcat] at hs; exact absurd hs (by simp [lookupStyle])
      | cons x xs => exact ⟨xs.length, by simp⟩
    rw [hn]
    simp only [styleChain, hs, hsb, hpar, hpb]
    cases n <;> simp [styleChain]
  constructor
  · unfold resolveProp cascadeLayers
    rw [layerValue_append, layerValue_append, hc]
  · unfold resolveProp cascadeLayers
    rw [hchain]
    simp only [List.map_cons, List.map_nil, List.flatten_cons, List.flatten_nil,
      List.append_nil]
    rw [layerValue_append, layerValue_append, ha]

/-- Witness for C3 at a concrete two-style catalog with conflicting
direct formatting. -/
theorem cascade_direct_wins_witness :
    resolveProp [] [⟨"Base", none, [("color", "b")]⟩,
        ⟨"Body", some "Base", [("color", "a")]⟩]
      (some "Body") [("color", "c")] "color" = some "c"
    ∧ resolveProp [] [⟨"Base", none, [("color", "b")]⟩,
        ⟨"Body", some "Base", [("color", "a")]⟩]
      (some "Body") [] "color" = some "a" :=
  cascade_direct_wins
    [⟨"Base", none, [("color", "b")]⟩, ⟨"Body", some "Base", [("color", "a")]⟩]
    [] [("color", "c")]
    ⟨"Body", some "Base", [("color", "a")]⟩ ⟨"Base", none, [("color", "b")]⟩
    "Body" "color" "a" "b" "c"
    (by decide) rfl (by decide) rfl rfl rfl rfl

end DocxToHtml
